import Mathlib

/-!
Verification development for the Autobase agent (Python sources under `src/`).

The Python code is shallowly embedded: pure logic becomes Lean functions,
stateful code threads explicit state, remote calls made by the absent
`steampy/client.py` (`SteamClient`) are abstracted as outcome oracles, and
Python exceptions are `Except` values.  Python dictionaries are embedded as
insertion-ordered association lists, matching CPython dict semantics.
-/

namespace Autobase

/-- A Python value, restricted to the shapes the embedded code inspects. -/
inductive PyVal where
  | pnone
  | pbool (b : Bool)
  | pint (n : Int)
  | pstr (s : String)
  | plist (xs : List PyVal)
  | pdict (kvs : List (String × PyVal))

/-- Python truthiness (`bool(v)`) on the embedded value shapes. -/
def PyVal.truthy : PyVal → Bool
  | .pnone => false
  | .pbool b => b
  | .pint n => n != 0
  | .pstr s => !s.isEmpty
  | .plist xs => !xs.isEmpty
  | .pdict kvs => !kvs.isEmpty

/-- `not v` in Python: falsy test. -/
def PyVal.falsy (v : PyVal) : Bool := !v.truthy

/-- `v is None` in Python. -/
def PyVal.isNoneVal : PyVal → Bool
  | .pnone => true
  | _ => false

/-- Truthiness of an optional string (`not x` where `x` is `None` or a `str`). -/
def optFalsy : Option String → Bool
  | none => true
  | some s => s.isEmpty

/-- `d.get(k)` on an embedded dict body: `None` when the key is absent. -/
def dictGet (kvs : List (String × PyVal)) (k : String) : PyVal :=
  match kvs.lookup k with
  | some v => v
  | none => .pnone

/-- Whether `pat` is a prefix of `s` (on character lists). -/
def listHasPrefix : List Char → List Char → Bool
  | _, [] => true
  | [], _ :: _ => false
  | c :: cs, p :: ps => c == p && listHasPrefix cs ps

/-- Whether `pat` occurs in `s` (on character lists). -/
def subOcc : List Char → List Char → Bool
  | [], pat => pat.isEmpty
  | c :: cs, pat => listHasPrefix (c :: cs) pat || subOcc cs pat

/-- `pat in s` for strings in Python (membership as substring). -/
def containsStr (s pat : String) : Bool := subOcc s.data pat.data

/-- Python `str.lower()` (faithful on ASCII, which is all the stored
logins use). -/
def pyLower (s : String) : String := ⟨s.data.map Char.toLower⟩

end Autobase

namespace Autobase.AccountManager

/-!
Embedding of `src/core/account_manager.py`.  The JSON storage file is a
Python dict `login → record`; we embed it as an insertion-ordered
association list.  `set_account` stores exactly the three credential
fields (no cookies), as in the source.
-/

/-- One stored account record.  `_read_storage` may yield records missing
any key, hence all fields are optional; `get_login_cookies` only accepts a
dict value, so the cookie field is embedded already type-checked. -/
structure AccountRec where
  password : Option String
  mafile_path : Option String
  api_key : Option String
  login_cookies : Option (List (String × String))
  deriving Repr, DecidableEq

/-- The parsed storage dict: insertion-ordered `login → record`. -/
abbrev Storage := List (String × AccountRec)

/-- `AccountManager.set_account`: delete every key equal to the login up to
case, then store the record under the lowercased login. -/
def set_account (st : Storage) (login password mafile_path api_key : String) : Storage :=
  (st.filter fun kv => pyLower kv.1 != pyLower login) ++
    [(pyLower login, ⟨some password, some mafile_path, some api_key, none⟩)]

/-- `AccountManager.get_password`: first record whose key matches the login
case-insensitively. -/
def get_password (st : Storage) (login : String) : Option String :=
  match st.find? (fun kv => pyLower kv.1 == pyLower login) with
  | some kv => kv.2.password
  | none => none

/-- `AccountManager.get_mafile_path`. -/
def get_mafile_path (st : Storage) (login : String) : Option String :=
  match st.find? (fun kv => pyLower kv.1 == pyLower login) with
  | some kv => kv.2.mafile_path
  | none => none

/-- `AccountManager.get_api_key`. -/
def get_api_key (st : Storage) (login : String) : Option String :=
  match st.find? (fun kv => pyLower kv.1 == pyLower login) with
  | some kv => kv.2.api_key
  | none => none

/-- `AccountManager.get_login_cookies`. -/
def get_login_cookies (st : Storage) (login : String) : Option (List (String × String)) :=
  match st.find? (fun kv => pyLower kv.1 == pyLower login) with
  | some kv => kv.2.login_cookies
  | none => none

end Autobase.AccountManager

namespace Autobase.Login

/-!
Embedding of the `x-eresult` handling of
`LoginExecutor._send_login_request` (`src/steampy/login.py`, lines 199-215)
and the static error catalog (lines 19-130).
-/

/-- The static numeric→text error catalog `errors` of `src/steampy/login.py`
(code 4 has no entry in the source). -/
def errorsCatalog : List (Int × String) := [
  (1, "All good! No error. (k_EResultOK)"),
  (2, "Generic failure. (k_EResultFail)"),
  (3, "No Steam connection. (k_EResultNoConnection)"),
  (5, "Invalid password or ticket. (k_EResultInvalidPassword)"),
  (6, "This user is logged in from another location. (k_EResultLoggedInElsewhere)"),
  (7, "Invalid protocol version. (k_EResultInvalidProtocolVer)"),
  (8, "Invalid parameter. (k_EResultInvalidParam)"),
  (9, "File not found. (k_EResultFileNotFound)"),
  (10, "Called method is busy, no action taken. (k_EResultBusy)"),
  (11, "Invalid state. (k_EResultInvalidState)"),
  (12, "Invalid name. (k_EResultInvalidName)"),
  (13, "Invalid email address. (k_EResultInvalidEmail)"),
  (14, "Duplicate name, not unique. (k_EResultDuplicateName)"),
  (15, "Access denied. (k_EResultAccessDenied)"),
  (16, "Operation timed out. (k_EResultTimeout)"),
  (17, "User is VAC banned. (k_EResultBanned)"),
  (18, "Account not found. (k_EResultAccountNotFound)"),
  (19, "Invalid SteamID. (k_EResultInvalidSteamID)"),
  (20, "Requested service is unavailable. (k_EResultServiceUnavailable)"),
  (21, "User not logged in. (k_EResultNotLoggedOn)"),
  (22, "Request is pending. (k_EResultPending)"),
  (23, "Encryption or decryption failed. (k_EResultEncryptionFailure)"),
  (24, "Insufficient privilege. (k_EResultInsufficientPrivilege)"),
  (25, "Limit exceeded. (k_EResultLimitExceeded)"),
  (26, "Access revoked. (k_EResultRevoked)"),
  (27, "Expired license or guest pass. (k_EResultExpired)"),
  (28, "Guest pass already redeemed. (k_EResultAlreadyRedeemed)"),
  (29, "Duplicate request, ignoring. (k_EResultDuplicateRequest)"),
  (30, "All requested games are already owned. (k_EResultAlreadyOwned)"),
  (31, "IP address not found. (k_EResultIPNotFound)"),
  (32, "Persist failed, unable to save changes. (k_EResultPersistFailed)"),
  (33, "Locking failed. (k_EResultLockingFailed)"),
  (34, "Logon session replaced. (k_EResultLogonSessionReplaced)"),
  (35, "Connect failed. (k_EResultConnectFailed)"),
  (36, "Handshake failed. (k_EResultHandshakeFailed)"),
  (37, "General I/O failure. (k_EResultIOFailure)"),
  (38, "Remote disconnect. (k_EResultRemoteDisconnect)"),
  (39, "Shopping cart not found. (k_EResultShoppingCartNotFound)"),
  (40, "Action blocked by the user. (k_EResultBlocked)"),
  (41, "Target is ignoring the sender. (k_EResultIgnored)"),
  (42, "No match found. (k_EResultNoMatch)"),
  (43, "Account disabled. (k_EResultAccountDisabled)"),
  (44, "Service is currently read-only. (k_EResultServiceReadOnly)"),
  (45, "Account not featured (no funds). (k_EResultAccountNotFeatured)"),
  (46, "Action allowed only because the request is from an administrator. (k_EResultAdministratorOK)"),
  (47, "Content version mismatch. (k_EResultContentVersion)"),
  (48, "Try another CM server. (k_EResultTryAnotherCM)"),
  (49, "Cached logon failed: you are already logged in elsewhere. (k_EResultPasswordRequiredToKickSession)"),
  (50, "User is logged in from another location. (Deprecated; use 6). (k_EResultAlreadyLoggedInElsewhere)"),
  (51, "Operation suspended/paused (e.g. content download). (k_EResultSuspended)"),
  (52, "Operation canceled, typically by user. (k_EResultCancelled)"),
  (53, "Operation canceled due to data corruption. (k_EResultDataCorruption)"),
  (54, "Operation canceled due to insufficient disk space. (k_EResultDiskFull)"),
  (55, "Remote or IPC call failed. (k_EResultRemoteCallFailed)"),
  (56, "Could not verify password, none is set. (k_EResultPasswordUnset)"),
  (57, "External account not linked to Steam. (k_EResultExternalAccountUnlinked)"),
  (58, "PlayStation ticket invalid. (k_EResultPSNTicketInvalid)"),
  (59, "External account already linked to another Steam account. (k_EResultExternalAccountAlreadyLinked)"),
  (60, "Remote file conflict. (k_EResultRemoteFileConflict)"),
  (61, "Illegal password. (k_EResultIllegalPassword)"),
  (62, "New value is the same as the old one. (k_EResultSameAsPreviousValue)"),
  (63, "Account logon denied (2FA error). (k_EResultAccountLogonDenied)"),
  (64, "Cannot use the old password. (k_EResultCannotUseOldPassword)"),
  (65, "Logon denied (invalid authentication code). (k_EResultInvalidLoginAuthCode)"),
  (66, "Logon denied (2FA email issue). (k_EResultAccountLogonDeniedNoMail)"),
  (67, "Hardware not capable of Intel IPT. (k_EResultHardwareNotCapableOfIPT)"),
  (68, "Intel IPT initialization failed. (k_EResultIPTInitError)"),
  (69, "Parental control restrictions in place. (k_EResultParentalControlRestricted)"),
  (70, "Facebook query returned an error. (k_EResultFacebookQueryError)"),
  (71, "Logon denied (expired authentication code). (k_EResultExpiredLoginAuthCode)"),
  (72, "IP login restriction failed. (k_EResultIPLoginRestrictionFailed)"),
  (73, "Account locked down (suspected hacking). (k_EResultAccountLockedDown)"),
  (74, "Logon denied: email not verified. (k_EResultAccountLogonDeniedVerifiedEmailRequired)"),
  (75, "No matching URL. (k_EResultNoMatchingURL)"),
  (76, "Bad response (missing field, read error, etc.). (k_EResultBadResponse)"),
  (77, "User must re-enter password. (k_EResultRequirePasswordReEntry)"),
  (78, "Value out of range. (k_EResultValueOutOfRange)"),
  (79, "Unexpected error occurred. (k_EResultUnexpectedError)"),
  (80, "Requested service is disabled. (k_EResultDisabled)"),
  (81, "Invalid CEG submission. (k_EResultInvalidCEGSubmission)"),
  (82, "Restricted device. (k_EResultRestrictedDevice)"),
  (83, "Action cannot be performed due to region lock. (k_EResultRegionLocked)"),
  (84, "Rate limit exceeded, try again later. (k_EResultRateLimitExceeded)"),
  (85, "Two-factor code required for logon. (k_EResultAccountLoginDeniedNeedTwoFactor)"),
  (86, "Requested item was deleted. (k_EResultItemDeleted)"),
  (87, "Logon denied: throttle in place (possible threat). (k_EResultAccountLoginDeniedThrottle)"),
  (88, "Two-factor code mismatch (Steam Guard). (k_EResultTwoFactorCodeMismatch)"),
  (89, "Two-factor activation code mismatch. (k_EResultTwoFactorActivationCodeMismatch)"),
  (90, "Account associated with multiple partners. (k_EResultAccountAssociatedToMultiplePartners)"),
  (91, "Data not modified. (k_EResultNotModified)"),
  (92, "No mobile device linked to this account. (k_EResultNoMobileDevice)"),
  (93, "Time not synced or out of range. (k_EResultTimeNotSynced)"),
  (94, "SMS code error. (k_EResultSmsCodeFailed)"),
  (95, "Account limit exceeded. (k_EResultAccountLimitExceeded)"),
  (96, "Too many account activity changes. (k_EResultAccountActivityLimitExceeded)"),
  (97, "Too many changes for this phone number. (k_EResultPhoneActivityLimitExceeded)"),
  (98, "Cannot refund to original payment method, refund to wallet required. (k_EResultRefundToWallet)"),
  (99, "Failed to send email. (k_EResultEmailSendFailure)"),
  (100, "Payment is not settled yet. (k_EResultNotSettled)"),
  (101, "Captcha is required. (k_EResultNeedCaptcha)"),
  (102, "GSLT token denied. (k_EResultGSLTDenied)"),
  (103, "Game server owner denied for another reason. (k_EResultGSOwnerDenied)"),
  (104, "Invalid item type. (k_EResultInvalidItemType)"),
  (105, "IP is banned from this action. (k_EResultIPBanned)"),
  (106, "GSLT has expired due to inactivity. (k_EResultGSLTExpired)"),
  (107, "Insufficient funds. (k_EResultInsufficientFunds)"),
  (108, "Too many pending requests. (k_EResultTooManyPending)")]

/-- Surrounding-whitespace strip on a character list. -/
def stripWs (l : List Char) : List Char :=
  ((l.dropWhile Char.isWhitespace).reverse.dropWhile Char.isWhitespace).reverse

/-- Python `int(s)` on a string: strip surrounding whitespace, optional
sign, then a nonempty run of decimal digits; anything else raises
`ValueError`, embedded as `none`.  (Numeral separators such as `_` and
non-ASCII digits are not modelled; no claim touches them.) -/
def pyParseInt (s : String) : Option Int :=
  let t := stripWs s.data
  let sd : Int × List Char :=
    match t with
    | '-' :: rest => (-1, rest)
    | '+' :: rest => (1, rest)
    | _ => (1, t)
  if sd.2.isEmpty then none
  else if sd.2.all Char.isDigit then
    some (sd.1 * Int.ofNat (sd.2.foldl (fun acc c => acc * 10 + (c.toNat - 48)) 0))
  else none

/-- Outcome of the `x-eresult` handling in `_send_login_request`:
either the login continues, a handled `Exception` with a message is
raised, or an unhandled `ValueError` escapes from `int(x_eresult)`. -/
inductive EresultOutcome where
  | proceed
  | raised (msg : String)
  | valueErrorFault (badValue : String)
  deriving Repr, DecidableEq

/-- Message raised when the header is absent (or empty, which is equally
falsy in Python). -/
def missingHeaderMsg : String := "Не удалось получить x-eresult из заголовков ответа."

/-- Message for a code present in the catalog. -/
def catalogMsg (n : Int) (text : String) : String :=
  "Авторизация не удалась, eResult=" ++ toString n ++ ": " ++ text

/-- Generic fallback message for a code absent from the catalog. -/
def fallbackMsg (n : Int) : String :=
  "Авторизация не удалась, неизвестный eResult=" ++ toString n ++ "."

/-- `LoginExecutor._send_login_request` from the `x-eresult` header read on:
`headers.get('x-eresult')` (absent ⇒ `None`), falsy check, `int(...)`,
compare with 1, catalog lookup, raise. -/
def sendLoginRequestCheck (header : Option String) : EresultOutcome :=
  match header with
  | none => .raised missingHeaderMsg
  | some s =>
    if s.data.isEmpty then .raised missingHeaderMsg
    else
      match pyParseInt s with
      | none => .valueErrorFault s
      | some n =>
        if n == 1 then .proceed
        else
          match errorsCatalog.lookup n with
          | some text => .raised (catalogMsg n text)
          | none => .raised (fallbackMsg n)

end Autobase.Login

namespace Autobase.Market

/-!
Embedding of the pagination decision and the dict-merge of
`SteamMarket.get_my_sell_listings` (`src/steampy/market.py`, lines 209-259).
After the first `/market` page is parsed, the counters
`tabContentsMyActiveMarketListings_end` (`n_showing`) and `..._total`
(`n_total`) select either one bulk `mylistings/render` request
(`start=n_showing, count=-1`) or a loop of `mylistings` requests of 100
(`start=n_showing+i` for `i in range(0, n_total, 100)`).
-/

open Autobase

/-- The follow-up fetch chosen once both counter spans were found. -/
inductive FetchPlan where
  | bulkRender (start : Nat)
  | pagedLoop (starts : List Nat)
  deriving Repr, DecidableEq

/-- The page starts of the `else` branch: `n_showing + i` for
`i in range(0, n_total, 100)`. -/
def pageStarts (n_showing n_total : Nat) : List Nat :=
  (List.range ((n_total + 99) / 100)).map fun j => n_showing + 100 * j

/-- The branch decision `if n_showing < n_total < 1000` of
`get_my_sell_listings`. -/
def sellListingsFetchPlan (n_showing n_total : Nat) : FetchPlan :=
  if n_showing < n_total ∧ n_total < 1000 then .bulkRender n_showing
  else .pagedLoop (pageStarts n_showing n_total)

/-- Whether a plan is the paged loop. -/
def FetchPlan.isPaged : FetchPlan → Bool
  | .bulkRender _ => false
  | .pagedLoop _ => true

/-- Keys of an embedded dict, in insertion order. -/
def dictKeys {V : Type} (d : List (String × V)) : List String := d.map Prod.fst

/-- Python `{**a, **b}` on embedded dicts: `a`'s keys in order with `b`'s
value when `b` shares the key, then `b`'s remaining keys in order.  This is
how each render/pagination page is merged into
`listings["sell_listings"]`. -/
def pyDictUnion {V : Type} (a b : List (String × V)) : List (String × V) :=
  (a.map fun kv => (kv.1, ((b.lookup kv.1).getD kv.2))) ++
    b.filter fun kv => !((dictKeys a).contains kv.1)

/-- The retry skeleton of `get_my_buy_orders` and `get_my_sell_listings`
(`src/steampy/market.py`, lines 67-123 and 182-292): `for attempt in
range(max_retries)` with `max_retries = 5`, `delay = 2 ** attempt` and
`time.sleep(delay)` after a failed attempt, and a raise on the last
attempt's failure, unrolled.  `oracle a` is the outcome of the 0-based
attempt `a`; the second component lists the sleeps performed.  (The
ApiException re-raise surfaces the last error as is; the generic-path
message wrapping is not modelled.) -/
def marketRetry (oracle : Nat → Except String PyVal) :
    Except String PyVal × List Nat :=
  match oracle 0 with
  | .ok v => (.ok v, [])
  | .error _ =>
  match oracle 1 with
  | .ok v => (.ok v, [2 ^ 0])
  | .error _ =>
  match oracle 2 with
  | .ok v => (.ok v, [2 ^ 0, 2 ^ 1])
  | .error _ =>
  match oracle 3 with
  | .ok v => (.ok v, [2 ^ 0, 2 ^ 1, 2 ^ 2])
  | .error _ => (oracle 4, [2 ^ 0, 2 ^ 1, 2 ^ 2, 2 ^ 3])

end Autobase.Market

namespace Autobase.Bridge

/-!
Embedding of `RemoteSteamClient._send_command_and_wait`
(`src/steampy/remote_client.py`, lines 142-200).  The `blpop` wait is
embedded as the optional response it produced (`none` = timeout), and the
three exits of the function become the constructors of `BridgeOutcome`.
-/

open Autobase

/-- The decoded response value the bridge reads from the correlation
queue; the code consults `status`, `error` and `result`. -/
structure AgentResp where
  status : Option String
  error : Option String
  result : Option PyVal

/-- How `_send_command_and_wait` ends: `os._exit(1)`, a raised
`RemoteSteamClientException`, or a returned result. -/
inductive BridgeOutcome where
  | exitProcess
  | raised (msg : String)
  | ok (result : Option PyVal)

/-- Substring test of the offline signals in the error message. -/
def offlineSignal (msg : String) : Bool :=
  containsStr msg "Agent is offline" || containsStr msg "Failed to send command"

/-- `RemoteSteamClient._send_command_and_wait` after publishing:
timeout ⇒ process exit; error status with an offline signal ⇒ process
exit; other error status ⇒ raised exception; otherwise the result. -/
def sendCommandAndWait (action : String) (response : Option AgentResp) : BridgeOutcome :=
  match response with
  | none => .exitProcess
  | some r =>
    if r.status == some "error" then
      let msg := r.error.getD "Unknown error"
      if offlineSignal msg then .exitProcess
      else .raised ("Agent error for command '" ++ action ++ "': " ++ msg)
    else .ok r.result

end Autobase.Bridge

namespace Autobase.Executor

/-!
Embedding of `src/core/command_executor.py`.

`SteamClient` (`steampy/client.py`) is not part of the sources; every call
into it (login steps, liveness probes, the remote Steam calls made by the
handlers) is abstracted as an outcome oracle carried by `Env`.  The effects
those calls perform on the network are recorded in an explicit trace so
that ordering properties ("no network call before X") are statable.
-/

open Autobase

/-- One observable effect of executing a command.  `sessionProbe` is the
`is_session_alive` check on a cached client, `cookieProbe` the probe of a
client freshly built from persisted cookies, `rsaFetch`/`credentialSubmit`
the first two remote steps of the full login protocol
(`LoginExecutor._fetch_rsa_params` / `_send_login_request`),
`postLoginProbe` the `is_session_alive` check after `client.login`,
`handlerNet` one remote Steam call issued by a dispatched handler, and
`sleep` an `asyncio.sleep` of a retry loop. -/
inductive Effect where
  | sessionProbe (login : String)
  | cookieProbe (login : String)
  | rsaFetch (login : String)
  | credentialSubmit (login : String)
  | postLoginProbe (login : String)
  | handlerNet (name : String)
  | sleep (secs : Nat)
  deriving Repr, DecidableEq

/-- Every effect except a backoff sleep is a network call.  (That the
liveness probes are network calls is modelled from the spec: the probe is
"a cheap authenticated call" of the absent `SteamClient`.) -/
def Effect.isNetwork : Effect → Bool
  | .sleep _ => false
  | _ => true

/-- Whether the effect is an RSA public-key fetch. -/
def Effect.isRsaFetch : Effect → Bool
  | .rsaFetch _ => true
  | _ => false

/-- Whether the effect is a credential submission. -/
def Effect.isCredentialSubmit : Effect → Bool
  | .credentialSubmit _ => true
  | _ => false

/-- Whether the effect is a handler's remote Steam call. -/
def Effect.isHandlerNet : Effect → Bool
  | .handlerNet _ => true
  | _ => false

/-- Whether the effect is a retry-backoff sleep. -/
def Effect.isSleep : Effect → Bool
  | .sleep _ => true
  | _ => false

/-- A live `SteamClient` handle as cached in `self.steam_clients`.
`fromCookies` records whether it was resumed from persisted cookies
(line 191) or produced by the full login (line 209). -/
structure Client where
  login : String
  fromCookies : Bool
  deriving Repr, DecidableEq

/-- The fields read from a parsed maFile (lines 158-160). -/
structure MaData where
  steamid : PyVal
  shared_secret : PyVal
  identity_secret : PyVal

/-- The maFile checks of lines 162-165. -/
def mafileFieldsOk (ma : MaData) : Bool :=
  !(ma.steamid.falsy || ma.shared_secret.falsy || ma.identity_secret.falsy)

/-- What `_get_steam_client` reads about one login: the four
`AccountManager` lookups, whether the maFile path exists on disk, and the
outcome of reading/parsing it. -/
structure AccountData where
  password : Option String
  mafile_path : Option String
  api_key : Option String
  login_cookies : Option (List (String × String))
  mafileExists : Bool
  mafileParse : Except String MaData

/-- Outcomes of the `SteamClient` calls `_get_steam_client` makes for one
login, in source order: the probe of a cached client (line 115), the
construction-plus-probe of a cookie-resumed client (lines 191-199; a
constructor failure is an `error` outcome), `client.login` (line 213), and
the probe after a fresh login (line 222). -/
structure LoginOracles where
  cachedProbe : Except String Bool
  cookieProbe : Except String Bool
  loginCall : Except String Unit
  postLoginProbe : Except String Bool

/-- The environment of a `CommandExecutor`: account store, proxy store,
and the outcome oracles for all `SteamClient` calls.  `remote login name
attempt` is the outcome of the `attempt`-th remote Steam call named
`name` issued by a handler for `login`; `currencyOk` is whether
`Currency(value)` constructs (the enum lives in the absent
`steampy/models.py`). -/
structure Env where
  accounts : String → AccountData
  oracles : String → LoginOracles
  proxy : String → Option String
  remote : String → String → Nat → Except String PyVal
  currencyOk : PyVal → Bool

/-- The `self.steam_clients` dict. -/
abbrev ClientMap := List (String × Client)

/-- `self.steam_clients[login] = client` on a dict: overwrite in place or
append. -/
def insertClient (m : ClientMap) (k : String) (c : Client) : ClientMap :=
  if (List.lookup k m).isSome then
    m.map fun kv => if kv.1 == k then (k, c) else kv
  else m ++ [(k, c)]

/-- `del self.steam_clients[login]` (the key is known to be present). -/
def eraseClient (m : ClientMap) (k : String) : ClientMap :=
  m.filter fun kv => kv.1 != k

/-- Lines 208-242 of `_get_steam_client`: the full login
(`client.login`, which runs the RSA fetch and credential submission of
`LoginExecutor`), the post-login liveness check, and caching.  The
write-back of cookies to `accounts.json` (lines 228-233) is a local file
effect and is not traced. -/
def fullLogin (env : Env) (clients : ClientMap) (login : String) :
    Option Client × ClientMap × List Effect :=
  let tr := [Effect.rsaFetch login, Effect.credentialSubmit login]
  match (env.oracles login).loginCall with
  | .error _ => (none, clients, tr)
  | .ok _ =>
    match (env.oracles login).postLoginProbe with
    | .ok true =>
      let c : Client := ⟨login, false⟩
      (some c, insertClient clients login c, tr ++ [Effect.postLoginProbe login])
    | .ok false => (none, clients, tr ++ [Effect.postLoginProbe login])
    | .error _ => (none, clients, tr ++ [Effect.postLoginProbe login])

/-- Lines 126-242 of `_get_steam_client`: credential lookups and checks,
then cookie resumption if persisted cookies exist, then the full login. -/
def acquireClient (env : Env) (clients : ClientMap) (login : String) :
    Option Client × ClientMap × List Effect :=
  let acc := env.accounts login
  if optFalsy acc.password then (none, clients, [])
  else if optFalsy acc.mafile_path then (none, clients, [])
  else if optFalsy acc.api_key then (none, clients, [])
  else if !acc.mafileExists then (none, clients, [])
  else
    match acc.mafileParse with
    | .error _ => (none, clients, [])
    | .ok ma =>
      if !mafileFieldsOk ma then (none, clients, [])
      else
        match acc.login_cookies with
        | some _ =>
          match (env.oracles login).cookieProbe with
          | .ok true =>
            let c : Client := ⟨login, true⟩
            (some c, insertClient clients login c, [Effect.cookieProbe login])
          | .ok false =>
            let p := fullLogin env clients login
            (p.1, p.2.1, Effect.cookieProbe login :: p.2.2)
          | .error _ =>
            let p := fullLogin env clients login
            (p.1, p.2.1, Effect.cookieProbe login :: p.2.2)
        | none => fullLogin env clients login

/-- `CommandExecutor._get_steam_client` (lines 107-242): cached-client
check with liveness probe and eviction, then `acquireClient`. -/
def getSteamClient (env : Env) (clients : ClientMap) (login : String) :
    Option Client × ClientMap × List Effect :=
  match List.lookup login clients with
  | some c =>
    match (env.oracles login).cachedProbe with
    | .ok true => (some c, clients, [Effect.sessionProbe login])
    | .ok false =>
      let p := acquireClient env (eraseClient clients login) login
      (p.1, p.2.1, Effect.sessionProbe login :: p.2.2)
    | .error _ =>
      let p := acquireClient env (eraseClient clients login) login
      (p.1, p.2.1, Effect.sessionProbe login :: p.2.2)
  | none => acquireClient env clients login

/-- The response dict sent back for every command. -/
structure Response where
  status : String
  message : Option String
  result : Option PyVal
  request_id : Option String

/-- A `{"status": "success", "result": v}` response. -/
def mkSuccess (v : PyVal) : Response := ⟨"success", none, some v, none⟩

/-- A `{"status": "error", "message": msg}` response. -/
def mkError (msg : String) : Response := ⟨"error", some msg, none, none⟩

/-- A handler's outcome: either a returned response or a raised exception,
together with the effect trace of the handler body. -/
def HResult := Except String Response × List Effect

/-- The retry loop shared by `_get_my_inventory`, `_get_partner_inventory`
and `_get_wallet_balance` (`for attempt in range(1, 6)` with
`await asyncio.sleep(attempt)` after a failure on attempts 1-4 and a
re-raise on attempt 5), unrolled.  `oracle n` is the outcome of the
remote call on attempt `n`. -/
def runRetry (name : String) (oracle : Nat → Except String PyVal) :
    Except String PyVal × List Effect :=
  let net := Effect.handlerNet name
  match oracle 1 with
  | .ok v => (.ok v, [net])
  | .error _ =>
  match oracle 2 with
  | .ok v => (.ok v, [net, .sleep 1, net])
  | .error _ =>
  match oracle 3 with
  | .ok v => (.ok v, [net, .sleep 1, net, .sleep 2, net])
  | .error _ =>
  match oracle 4 with
  | .ok v => (.ok v, [net, .sleep 1, net, .sleep 2, net, .sleep 3, net])
  | .error _ =>
    (oracle 5, [net, .sleep 1, net, .sleep 2, net, .sleep 3, net, .sleep 4, net])

/-- A handler that performs one remote call and converts a raised
exception into an error response (the common `try/except` shape of the
market handlers). -/
def singleCall (name : String) (oracle : Nat → Except String PyVal) : HResult :=
  match oracle 1 with
  | .ok v => (.ok (mkSuccess v), [Effect.handlerNet name])
  | .error e => (.ok (mkError e), [Effect.handlerNet name])

/-- `CommandExecutor._get_my_inventory`: the game-option selection is pure
and cannot fail; the remote call is wrapped in the retry loop, whose
exhaustion re-raises. -/
def getMyInventoryH (oracle : Nat → Except String PyVal) : HResult :=
  let p := runRetry "get_my_inventory" oracle
  (match p.1 with
   | .ok v => .ok (mkSuccess v)
   | .error e => .error e, p.2)

/-- `CommandExecutor._get_partner_inventory`: validation of
`partner_steam_id`, then the same retry loop. -/
def getPartnerInventoryH (args : List (String × PyVal))
    (oracle : Nat → Except String PyVal) : HResult :=
  if (dictGet args "partner_steam_id").falsy then
    (.ok (mkError "Не указан partner_steam_id"), [])
  else
    let p := runRetry "get_partner_inventory" oracle
    (match p.1 with
     | .ok v => .ok (mkSuccess v)
     | .error e => .error e, p.2)

/-- `CommandExecutor._get_wallet_balance`: the retry loop; the reshaping
of the balance fields is folded into the oracle's value (a missing key
there raises inside the `try` and is retried like any failure). -/
def getWalletBalanceH (oracle : Nat → Except String PyVal) : HResult :=
  let p := runRetry "get_wallet_balance" oracle
  (match p.1 with
   | .ok v => .ok (mkSuccess v)
   | .error e => .error e, p.2)

/-- `CommandExecutor._is_session_alive`: one call, exception caught. -/
def isSessionAliveH (oracle : Nat → Except String PyVal) : HResult :=
  singleCall "is_session_alive" oracle

/-- `CommandExecutor._make_offer_with_url`: validation of
`trade_offer_url`, one call, exception caught.  The `Asset` assembly is
pure and value-irrelevant here. -/
def makeOfferWithUrlH (args : List (String × PyVal))
    (oracle : Nat → Except String PyVal) : HResult :=
  if (dictGet args "trade_offer_url").falsy then
    (.ok (mkError "Не указан trade_offer_url"), [])
  else singleCall "make_offer_with_url" oracle

/-- `CommandExecutor._market_fetch_price`: presence validation
(`currency` is checked with `is None`, the others for falsiness), the
`Currency(...)` construction (whose failure yields an error response; the
interpolated offending value is omitted from the embedded message), then
one call with exception caught. -/
def marketFetchPriceH (env : Env) (args : List (String × PyVal))
    (oracle : Nat → Except String PyVal) : HResult :=
  if (dictGet args "item_hash_name").falsy || (dictGet args "app_id").falsy ||
      (dictGet args "currency").isNoneVal then
    (.ok (mkError "Не указаны item_hash_name, app_id или currency"), [])
  else if !env.currencyOk (dictGet args "currency") then
    (.ok (mkError "Неверное значение валюты"), [])
  else singleCall "market_fetch_price" oracle

/-- `CommandExecutor._market_create_sell_order`: validation of `assetid`,
`app_id` and `money_to_receive`, then one call with exception caught. -/
def marketCreateSellOrderH (args : List (String × PyVal))
    (oracle : Nat → Except String PyVal) : HResult :=
  if (dictGet args "assetid").falsy || (dictGet args "app_id").falsy ||
      (dictGet args "money_to_receive").falsy then
    (.ok (mkError "Не указаны assetid, app_id или money_to_receive"), [])
  else singleCall "market_create_sell_order" oracle

/-- `CommandExecutor._market_cancel_sell_order`: validation of
`sell_listing_id`; the remote call returns no value and the success
response carries `"result": None`. -/
def marketCancelSellOrderH (args : List (String × PyVal))
    (oracle : Nat → Except String PyVal) : HResult :=
  if (dictGet args "sell_listing_id").falsy then
    (.ok (mkError "Не указан sell_listing_id"), [])
  else
    match oracle 1 with
    | .ok _ => (.ok ⟨"success", none, some .pnone, none⟩,
        [Effect.handlerNet "market_cancel_sell_order"])
    | .error e => (.ok (mkError e), [Effect.handlerNet "market_cancel_sell_order"])

/-- `CommandExecutor._market_cancel_buy_order`: validation of
`buy_order_id`, then one call with exception caught. -/
def marketCancelBuyOrderH (args : List (String × PyVal))
    (oracle : Nat → Except String PyVal) : HResult :=
  if (dictGet args "buy_order_id").falsy then
    (.ok (mkError "Не указан buy_order_id"), [])
  else singleCall "market_cancel_buy_order" oracle

/-- `CommandExecutor.execute_command`'s routing table (lines 61-92):
handler per `cmd_type`, unknown commands produce an error response. -/
def routeCommand (env : Env) (login : String) (cmdType : String)
    (args : List (String × PyVal)) : HResult :=
  let oracle := env.remote login
  if cmdType == "get_my_inventory" then getMyInventoryH (oracle "get_my_inventory")
  else if cmdType == "get_partner_inventory" then
    getPartnerInventoryH args (oracle "get_partner_inventory")
  else if cmdType == "get_wallet_balance" then getWalletBalanceH (oracle "get_wallet_balance")
  else if cmdType == "is_session_alive" then isSessionAliveH (oracle "is_session_alive")
  else if cmdType == "make_offer_with_url" then
    makeOfferWithUrlH args (oracle "make_offer_with_url")
  else if cmdType == "market_fetch_price" then
    marketFetchPriceH env args (oracle "market_fetch_price")
  else if cmdType == "market_create_sell_order" then
    marketCreateSellOrderH args (oracle "market_create_sell_order")
  else if cmdType == "market_cancel_sell_order" then
    marketCancelSellOrderH args (oracle "market_cancel_sell_order")
  else if cmdType == "market_cancel_buy_order" then
    marketCancelBuyOrderH args (oracle "market_cancel_buy_order")
  else if cmdType == "market_get_my_buy_orders" then
    singleCall "market_get_my_buy_orders" (oracle "market_get_my_buy_orders")
  else if cmdType == "market_get_my_sell_listings" then
    singleCall "market_get_my_sell_listings" (oracle "market_get_my_sell_listings")
  else if cmdType == "market_get_my_recent_sell_listings" then
    singleCall "market_get_my_recent_sell_listings" (oracle "market_get_my_recent_sell_listings")
  else if cmdType == "market_get_my_market_listings" then
    singleCall "market_get_my_market_listings" (oracle "market_get_my_market_listings")
  else if cmdType == "market_get_history" then
    singleCall "market_get_history" (oracle "market_get_history")
  else if cmdType == "get_session_id" then
    singleCall "get_session_id" (oracle "get_session_id")
  else (.ok (mkError ("Неизвестная команда: " ++ cmdType)), [])

/-- The command dict: the three envelope fields `execute_command` reads,
plus the `args` dict (`command.get("args", {})`). -/
structure Command where
  cmd : Option String
  account_login : Option String
  request_id : Option String
  args : List (String × PyVal)

/-- `CommandExecutor.execute_command` (lines 31-105): envelope check,
client acquisition, routing, `result["request_id"] = request_id`, and the
top-level `except` that turns a raised exception into an error
response. -/
def executeCommand (env : Env) (clients : ClientMap) (command : Command) :
    Response × ClientMap × List Effect :=
  if optFalsy command.cmd || optFalsy command.account_login then
    (⟨"error", some "Некорректная команда: отсутствует cmd или login", none,
      command.request_id⟩, clients, [])
  else
    let login := command.account_login.getD ""
    let cmdType := command.cmd.getD ""
    let p := getSteamClient env clients login
    match p.1 with
    | none =>
      (⟨"error", some ("Не удалось создать Steam клиент для " ++ login), none,
        command.request_id⟩, p.2.1, p.2.2)
    | some _ =>
      let h := routeCommand env login cmdType command.args
      match h.1 with
      | .ok r => ({ r with request_id := command.request_id }, p.2.1, p.2.2 ++ h.2)
      | .error e =>
        (⟨"error", some e, none, command.request_id⟩, p.2.1, p.2.2 ++ h.2)

end Autobase.Executor

namespace Autobase.Channel

/-!
Embedding of `src/core/websocket_client.py`: `connect` (lines 31-91)
sends the manifest immediately after connecting, then runs `_listen_loop`
(lines 93-123), which for each received command invokes the executor and
sends exactly one response.  Inbound messages are embedded as the already
parsed commands of the connection's lifetime; the send is assumed to
succeed (a transport failure closes the connection, ending the trace).
-/

open Autobase Autobase.Executor

/-- A message the agent sends over the websocket. -/
inductive Msg where
  | manifest (logins : List String)
  | response (r : Response)

/-- Whether the message is the manifest. -/
def Msg.isManifest : Msg → Bool
  | .manifest _ => true
  | .response _ => false

/-- Whether the message is a command response. -/
def Msg.isResponse : Msg → Bool
  | .manifest _ => false
  | .response _ => true

/-- `WebSocketClient._listen_loop`: responses in receipt order, threading
the executor's client cache.  The loop's defensive
`if "request_id" not in response` re-attachment is embedded as filling the
field when the executor left it empty. -/
def listenLoop (env : Env) : ClientMap → List Command → List Response × ClientMap
  | clients, [] => ([], clients)
  | clients, c :: rest =>
    let p := executeCommand env clients c
    let r := if p.1.request_id.isNone then { p.1 with request_id := c.request_id } else p.1
    let q := listenLoop env p.2.1 rest
    (r :: q.1, q.2)

/-- Everything `WebSocketClient.connect` sends on one connection: the
manifest, then the listen loop's responses. -/
def connectSent (env : Env) (clients : ClientMap) (logins : List String)
    (cmds : List Command) : List Msg :=
  .manifest logins :: ((listenLoop env clients cmds).1.map .response)

end Autobase.Channel

namespace Autobase.Executor

/-! Concrete sample data used to evaluate the model on closed inputs. -/

/-- A parsed maFile with all required fields present. -/
def sampleMa : MaData := ⟨.pint 76561198000000001, .pstr "shared", .pstr "identity"⟩

/-- An account record with full credentials, persisted cookies and a
readable maFile. -/
def sampleAccount : AccountData :=
  ⟨some "pw", some "/ma/alice.maFile", some "APIKEY",
   some [("steamLoginSecure", "tok")], true, .ok sampleMa⟩

/-- Oracles where every probe reports the session alive and the login
succeeds. -/
def sampleOracles : LoginOracles := ⟨.ok true, .ok true, .ok (), .ok true⟩

/-- An environment where every account is fully provisioned, probes
succeed, and every remote handler call fails with "network down". -/
def sampleEnv : Env :=
  ⟨fun _ => sampleAccount, fun _ => sampleOracles, fun _ => none,
   fun _ _ _ => .error "network down", fun _ => true⟩

/-- A cache already holding a live client for login `alice`. -/
def sampleClients : ClientMap := [("alice", ⟨"alice", false⟩)]

end Autobase.Executor

namespace Autobase.Executor

/-- The response envelope invariant: every response's status is
`"success"` or `"error"`. -/
def statusValid (r : Response) : Prop := r.status = "success" ∨ r.status = "error"

/-- The effect trace of a retry loop that reaches attempt 5: five remote
calls with backoff sleeps of 1, 2, 3 and 4 seconds between them. -/
def retryTrace (name : String) : List Effect :=
  [.handlerNet name, .sleep 1, .handlerNet name, .sleep 2, .handlerNet name,
   .sleep 3, .handlerNet name, .sleep 4, .handlerNet name]

end Autobase.Executor

namespace Autobase.Market

/-- Merging a page into the accumulated listings map never creates a
duplicate key: `{**a, **b}` keeps `a`'s keys once and adds only the keys
of `b` not already present. -/
theorem pyDictUnion_keys_nodup {V : Type} (a b : List (String × V))
    (ha : (dictKeys a).Nodup) (hb : (dictKeys b).Nodup) :
    (dictKeys (pyDictUnion a b)).Nodup := by
  unfold pyDictUnion dictKeys at *
  rw [List.map_append]
  refine List.Nodup.append ?_ ?_ ?_
  · rw [List.map_map]
    simpa using ha
  · exact hb.sublist ((List.filter_sublist _).map _)
  · intro k hk1 hk2
    rw [List.map_map] at hk1
    obtain ⟨kv, hkvm, hkeq⟩ := List.mem_map.mp hk2
    have hpred := (List.mem_filter.mp hkvm).2
    simp only [Bool.not_eq_true'] at hpred
    have hnot : kv.1 ∉ List.map Prod.fst a := by simpa using hpred
    apply hnot
    have hmem : k ∈ List.map Prod.fst a := by simpa [Function.comp] using hk1
    rw [hkeq]
    exact hmem

end Autobase.Market

namespace Autobase.Claims

open Autobase

/-- C2 counterexample: with total=250 and shown=30 the code takes the
single bulk `render` branch (`30 < 250 < 1000`), not the 100-per-page
loop the claim asserts. -/
theorem sell_listings_total250_uses_bulk :
    Market.sellListingsFetchPlan 30 250 = .bulkRender 30 ∧
    (Market.sellListingsFetchPlan 30 250).isPaged = false := by
  decide

/-- C2 (amended): the single bulk "render all" request is used exactly
when the shown count is below the total and the total is below 1000 (the
threshold is on the total, not the remainder); in particular both
total=250/shown=30 and total=120/shown=30 use one bulk render call; and
the accumulated listings map has no duplicate keys. -/
theorem sell_listings_pagination (ns nt : Nat) (a b : List (String × PyVal))
    (ha : (Market.dictKeys a).Nodup) (hb : (Market.dictKeys b).Nodup) :
    (Market.sellListingsFetchPlan ns nt = .bulkRender ns ↔ ns < nt ∧ nt < 1000) ∧
    Market.sellListingsFetchPlan 30 250 = .bulkRender 30 ∧
    Market.sellListingsFetchPlan 30 120 = .bulkRender 30 ∧
    (Market.dictKeys (Market.pyDictUnion a b)).Nodup := by
  refine ⟨?_, by decide, by decide, Market.pyDictUnion_keys_nodup a b ha hb⟩
  by_cases hc : ns < nt ∧ nt < 1000 <;> simp [Market.sellListingsFetchPlan, hc]

/-- C2 witness: the amended statement evaluated on concrete counters and
concrete one-entry pages. -/
theorem sell_listings_pagination_witness :
    ((Market.dictKeys [("101", PyVal.pnone)]).Nodup ∧
     (Market.dictKeys [("202", PyVal.pnone)]).Nodup) ∧
    (Market.sellListingsFetchPlan 30 250 = .bulkRender 30 ∧
     Market.sellListingsFetchPlan 30 120 = .bulkRender 30 ∧
     (Market.dictKeys (Market.pyDictUnion [("101", PyVal.pnone)] [("202", PyVal.pnone)])).Nodup) :=
  ⟨⟨by decide, by decide⟩,
   (sell_listings_pagination 30 250 [("101", PyVal.pnone)] [("202", PyVal.pnone)]
     (by decide) (by decide)).2⟩

/-- C6: the caller-side bridge terminates the process on a missing
(timed-out) response and on an error response whose message carries an
offline signal; every other error response raises an exception, and a
non-error response returns the result. -/
theorem bridge_failfast (action : String) (r : Bridge.AgentResp) :
    Bridge.sendCommandAndWait action none = .exitProcess ∧
    (r.status = some "error" →
      Bridge.offlineSignal (r.error.getD "Unknown error") = true →
      Bridge.sendCommandAndWait action (some r) = .exitProcess) ∧
    (r.status = some "error" →
      Bridge.offlineSignal (r.error.getD "Unknown error") = false →
      Bridge.sendCommandAndWait action (some r) =
        .raised ("Agent error for command '" ++ action ++ "': " ++
          r.error.getD "Unknown error")) ∧
    (r.status ≠ some "error" → Bridge.sendCommandAndWait action (some r) = .ok r.result) := by
  refine ⟨rfl, ?_, ?_, ?_⟩
  · intro h1 h2
    simp [Bridge.sendCommandAndWait, h1, h2]
  · intro h1 h2
    simp [Bridge.sendCommandAndWait, h1, h2]
  · intro h1
    simp [Bridge.sendCommandAndWait, h1]

/-- C6 witness: a timed-out wait exits, an offline-signalling error
message exits, and an ordinary error raises. -/
theorem bridge_failfast_witness :
    Bridge.sendCommandAndWait "is_session_alive" none = .exitProcess ∧
    ((⟨some "error", some "Agent is offline", none⟩ : Bridge.AgentResp).status = some "error" ∧
     Bridge.offlineSignal "Agent is offline" = true ∧
     Bridge.sendCommandAndWait "is_session_alive"
       (some ⟨some "error", some "Agent is offline", none⟩) = .exitProcess) ∧
    Bridge.sendCommandAndWait "is_session_alive"
      (some ⟨some "error", some "boom", none⟩) =
      .raised ("Agent error for command '" ++ "is_session_alive" ++ "': " ++ "boom") :=
  ⟨(bridge_failfast "is_session_alive" ⟨some "error", some "Agent is offline", none⟩).1,
   ⟨rfl, by decide,
    (bridge_failfast "is_session_alive" ⟨some "error", some "Agent is offline", none⟩).2.1
      rfl (by decide)⟩,
   (bridge_failfast "is_session_alive" ⟨some "error", some "boom", none⟩).2.2.1
     rfl (by decide)⟩

/-- C10: the credential-store getters return the same result for any two
logins equal up to case, and `set_account` removes every case-variant
key, keeping the record only under the lowercased login, while preserving
every entry for other logins. -/
theorem account_lookups_case_insensitive
    (st : AccountManager.Storage) (l l' : String) (hl : pyLower l = pyLower l')
    (pw mp ak : String) :
    AccountManager.get_password st l = AccountManager.get_password st l' ∧
    AccountManager.get_mafile_path st l = AccountManager.get_mafile_path st l' ∧
    AccountManager.get_api_key st l = AccountManager.get_api_key st l' ∧
    AccountManager.get_login_cookies st l = AccountManager.get_login_cookies st l' ∧
    (pyLower l, (⟨some pw, some mp, some ak, none⟩ : AccountManager.AccountRec))
      ∈ AccountManager.set_account st l pw mp ak ∧
    (∀ kv ∈ AccountManager.set_account st l pw mp ak, pyLower kv.1 = pyLower l →
      kv = (pyLower l, ⟨some pw, some mp, some ak, none⟩)) ∧
    (∀ kv ∈ st, pyLower kv.1 ≠ pyLower l → kv ∈ AccountManager.set_account st l pw mp ak) := by
  refine ⟨by simp only [AccountManager.get_password, hl],
    by simp only [AccountManager.get_mafile_path, hl],
    by simp only [AccountManager.get_api_key, hl],
    by simp only [AccountManager.get_login_cookies, hl], ?_, ?_, ?_⟩
  · exact List.mem_append_right _ (List.mem_singleton.mpr rfl)
  · intro kv hkv hlow
    rcases List.mem_append.mp hkv with hf | hs
    · have := (List.mem_filter.mp hf).2
      rw [bne_iff_ne] at this
      exact absurd hlow this
    · exact List.mem_singleton.mp hs
  · intro kv hkv hne
    exact List.mem_append_left _ (List.mem_filter.mpr ⟨hkv, bne_iff_ne.mpr hne⟩)

/-- C10 witness: `"SteamUser"` and `"steamuser"` resolve to the same
record, and `set_account` leaves a single, lowercased entry. -/
theorem account_lookups_case_insensitive_witness :
    (pyLower "SteamUser" = pyLower "steamuser") ∧
    AccountManager.get_password [("STEAMUSER", ⟨some "x", none, none, none⟩)] "SteamUser" =
      AccountManager.get_password [("STEAMUSER", ⟨some "x", none, none, none⟩)] "steamuser" :=
  ⟨by decide,
   (account_lookups_case_insensitive [("STEAMUSER", ⟨some "x", none, none, none⟩)]
     "SteamUser" "steamuser" (by decide) "p" "m" "a").1⟩

end Autobase.Claims

namespace Autobase.Login

/-- A string that parses as an integer is nonempty. -/
theorem pyParseInt_ne_empty {s : String} {n : Int} (hp : pyParseInt s = some n) :
    s.data.isEmpty = false := by
  cases he : s.data.isEmpty
  · rfl
  · exfalso
    have hs : s = "" := by
      cases s with
      | mk data =>
        simp only [String.data] at he
        simp only [List.isEmpty_iff] at he
        simp [he]
    rw [hs] at hp
    have hnone : pyParseInt "" = none := by decide
    rw [hnone] at hp
    exact Option.noConfusion hp

end Autobase.Login

namespace Autobase.Claims

/-- C3 counterexample: a non-numeric `x-eresult` header value (for
example `"abc"`) makes `int(x_eresult)` raise an uncaught `ValueError`,
an unhandled fault, contradicting the claim's "for every possible header
value, no unhandled fault occurs". -/
theorem eresult_nonnumeric_header_faults :
    Login.sendLoginRequestCheck (some "abc") = .valueErrorFault "abc" := by
  decide

/-- C3 (amended): an absent (or empty, equally falsy) `x-eresult` header
is fatal; for every header value that parses as an integer, value 1
continues, a value in the catalog raises a descriptive error whose
message contains the catalog text, a value outside the catalog raises the
generic fallback, and no unhandled fault occurs; a non-numeric value,
however, escapes as a `ValueError`. -/
theorem eresult_header_handling (h : Option String) :
    (h = none → Login.sendLoginRequestCheck h = .raised Login.missingHeaderMsg) ∧
    (h = some "" → Login.sendLoginRequestCheck h = .raised Login.missingHeaderMsg) ∧
    (∀ s n, h = some s → Login.pyParseInt s = some n →
      (n = 1 → Login.sendLoginRequestCheck h = .proceed) ∧
      (∀ t, n ≠ 1 → Login.errorsCatalog.lookup n = some t →
        Login.sendLoginRequestCheck h = .raised (Login.catalogMsg n t) ∧
        ∃ p, Login.catalogMsg n t = p ++ t) ∧
      (n ≠ 1 → Login.errorsCatalog.lookup n = none →
        Login.sendLoginRequestCheck h = .raised (Login.fallbackMsg n)) ∧
      (∀ bad, Login.sendLoginRequestCheck h ≠ .valueErrorFault bad)) := by
  refine ⟨?_, ?_, ?_⟩
  · rintro rfl; rfl
  · rintro rfl; rfl
  · rintro s n rfl hp
    have hne := Login.pyParseInt_ne_empty hp
    refine ⟨?_, ?_, ?_, ?_⟩
    · rintro rfl
      simp [Login.sendLoginRequestCheck, hne, hp]
    · intro t hn hlk
      have hb : (n == 1) = false := by simpa using hn
      refine ⟨?_, "Авторизация не удалась, eResult=" ++ toString n ++ ": ", rfl⟩
      simp [Login.sendLoginRequestCheck, hne, hp, hb, hlk]
    · intro hn hlk
      have hb : (n == 1) = false := by simpa using hn
      simp [Login.sendLoginRequestCheck, hne, hp, hb, hlk]
    · intro bad
      by_cases h1 : n = 1
      · subst h1
        simp [Login.sendLoginRequestCheck, hne, hp]
      · have hb : (n == 1) = false := by simpa using h1
        cases hlk : Login.errorsCatalog.lookup n <;>
          simp [Login.sendLoginRequestCheck, hne, hp, hb, hlk]

/-- C3 witness: header value `"5"` (invalid password) maps through the
catalog to its descriptive message. -/
theorem eresult_header_handling_witness :
    (Login.pyParseInt "5" = some 5 ∧ (5 : Int) ≠ 1 ∧
     Login.errorsCatalog.lookup 5 =
       some "Invalid password or ticket. (k_EResultInvalidPassword)") ∧
    (Login.sendLoginRequestCheck (some "5") =
       .raised (Login.catalogMsg 5 "Invalid password or ticket. (k_EResultInvalidPassword)") ∧
     ∃ p, Login.catalogMsg 5 "Invalid password or ticket. (k_EResultInvalidPassword)" =
       p ++ "Invalid password or ticket. (k_EResultInvalidPassword)") :=
  ⟨⟨by decide, by decide, by decide⟩,
   ((eresult_header_handling (some "5")).2.2 "5" 5 rfl (by decide)).2.1
     "Invalid password or ticket. (k_EResultInvalidPassword)" (by decide) (by decide)⟩

end Autobase.Claims

namespace Autobase.Executor

/-- Every branch of `execute_command` stamps the command's `request_id`
into the response. -/
theorem executeCommand_request_id (env : Env) (clients : ClientMap) (c : Command) :
    (executeCommand env clients c).1.request_id = c.request_id := by
  unfold executeCommand
  split
  · rfl
  · dsimp only
    split
    · rfl
    · split <;> rfl

/-- `singleCall` only returns well-formed responses. -/
theorem singleCall_statusValid (name : String) (oracle : Nat → Except String PyVal)
    (r : Response) (h : (singleCall name oracle).1 = .ok r) : statusValid r := by
  cases ho : oracle 1 <;> simp [singleCall, ho] at h <;> subst h <;>
    simp [statusValid, mkSuccess, mkError]

/-- `_get_my_inventory` only returns well-formed responses. -/
theorem getMyInventoryH_statusValid (oracle : Nat → Except String PyVal)
    (r : Response) (h : (getMyInventoryH oracle).1 = .ok r) : statusValid r := by
  unfold getMyInventoryH at h
  cases hr : (runRetry "get_my_inventory" oracle).1 <;> simp [hr] at h
  subst h
  simp [statusValid, mkSuccess]

/-- `_get_partner_inventory` only returns well-formed responses. -/
theorem getPartnerInventoryH_statusValid (args : List (String × PyVal))
    (oracle : Nat → Except String PyVal) (r : Response)
    (h : (getPartnerInventoryH args oracle).1 = .ok r) : statusValid r := by
  unfold getPartnerInventoryH at h
  split at h
  · simp at h; subst h; simp [statusValid, mkError]
  · cases hr : (runRetry "get_partner_inventory" oracle).1 <;> simp [hr] at h
    subst h
    simp [statusValid, mkSuccess]

/-- `_get_wallet_balance` only returns well-formed responses. -/
theorem getWalletBalanceH_statusValid (oracle : Nat → Except String PyVal)
    (r : Response) (h : (getWalletBalanceH oracle).1 = .ok r) : statusValid r := by
  unfold getWalletBalanceH at h
  cases hr : (runRetry "get_wallet_balance" oracle).1 <;> simp [hr] at h
  subst h
  simp [statusValid, mkSuccess]

/-- `_make_offer_with_url` only returns well-formed responses. -/
theorem makeOfferWithUrlH_statusValid (args : List (String × PyVal))
    (oracle : Nat → Except String PyVal) (r : Response)
    (h : (makeOfferWithUrlH args oracle).1 = .ok r) : statusValid r := by
  unfold makeOfferWithUrlH at h
  split at h
  · simp at h; subst h; simp [statusValid, mkError]
  · exact singleCall_statusValid _ _ _ h

/-- `_market_fetch_price` only returns well-formed responses. -/
theorem marketFetchPriceH_statusValid (env : Env) (args : List (String × PyVal))
    (oracle : Nat → Except String PyVal) (r : Response)
    (h : (marketFetchPriceH env args oracle).1 = .ok r) : statusValid r := by
  unfold marketFetchPriceH at h
  split at h
  · simp at h; subst h; simp [statusValid, mkError]
  · split at h
    · simp at h; subst h; simp [statusValid, mkError]
    · exact singleCall_statusValid _ _ _ h

/-- `_market_create_sell_order` only returns well-formed responses. -/
theorem marketCreateSellOrderH_statusValid (args : List (String × PyVal))
    (oracle : Nat → Except String PyVal) (r : Response)
    (h : (marketCreateSellOrderH args oracle).1 = .ok r) : statusValid r := by
  unfold marketCreateSellOrderH at h
  split at h
  · simp at h; subst h; simp [statusValid, mkError]
  · exact singleCall_statusValid _ _ _ h

/-- `_market_cancel_sell_order` only returns well-formed responses. -/
theorem marketCancelSellOrderH_statusValid (args : List (String × PyVal))
    (oracle : Nat → Except String PyVal) (r : Response)
    (h : (marketCancelSellOrderH args oracle).1 = .ok r) : statusValid r := by
  unfold marketCancelSellOrderH at h
  split at h
  · simp at h; subst h; simp [statusValid, mkError]
  · cases ho : oracle 1 <;> simp [ho] at h <;> subst h <;>
      simp [statusValid, mkError]

/-- `_market_cancel_buy_order` only returns well-formed responses. -/
theorem marketCancelBuyOrderH_statusValid (args : List (String × PyVal))
    (oracle : Nat → Except String PyVal) (r : Response)
    (h : (marketCancelBuyOrderH args oracle).1 = .ok r) : statusValid r := by
  unfold marketCancelBuyOrderH at h
  split at h
  · simp at h; subst h; simp [statusValid, mkError]
  · exact singleCall_statusValid _ _ _ h

/-- Whatever the dispatcher routes to, a returned (non-raised) response
has a well-formed status. -/
theorem routeCommand_ok_statusValid (env : Env) (login cmdType : String)
    (args : List (String × PyVal)) (r : Response)
    (h : (routeCommand env login cmdType args).1 = .ok r) : statusValid r := by
  unfold routeCommand at h
  dsimp only at h
  by_cases h1 : (cmdType == "get_my_inventory") = true
  · rw [if_pos h1] at h
    exact getMyInventoryH_statusValid _ _ h
  rw [if_neg h1] at h
  by_cases h2 : (cmdType == "get_partner_inventory") = true
  · rw [if_pos h2] at h
    exact getPartnerInventoryH_statusValid _ _ _ h
  rw [if_neg h2] at h
  by_cases h3 : (cmdType == "get_wallet_balance") = true
  · rw [if_pos h3] at h
    exact getWalletBalanceH_statusValid _ _ h
  rw [if_neg h3] at h
  by_cases h4 : (cmdType == "is_session_alive") = true
  · rw [if_pos h4] at h
    exact singleCall_statusValid _ _ _ h
  rw [if_neg h4] at h
  by_cases h5 : (cmdType == "make_offer_with_url") = true
  · rw [if_pos h5] at h
    exact makeOfferWithUrlH_statusValid _ _ _ h
  rw [if_neg h5] at h
  by_cases h6 : (cmdType == "market_fetch_price") = true
  · rw [if_pos h6] at h
    exact marketFetchPriceH_statusValid _ _ _ _ h
  rw [if_neg h6] at h
  by_cases h7 : (cmdType == "market_create_sell_order") = true
  · rw [if_pos h7] at h
    exact marketCreateSellOrderH_statusValid _ _ _ h
  rw [if_neg h7] at h
  by_cases h8 : (cmdType == "market_cancel_sell_order") = true
  · rw [if_pos h8] at h
    exact marketCancelSellOrderH_statusValid _ _ _ h
  rw [if_neg h8] at h
  by_cases h9 : (cmdType == "market_cancel_buy_order") = true
  · rw [if_pos h9] at h
    exact marketCancelBuyOrderH_statusValid _ _ _ h
  rw [if_neg h9] at h
  by_cases h10 : (cmdType == "market_get_my_buy_orders") = true
  · rw [if_pos h10] at h
    exact singleCall_statusValid _ _ _ h
  rw [if_neg h10] at h
  by_cases h11 : (cmdType == "market_get_my_sell_listings") = true
  · rw [if_pos h11] at h
    exact singleCall_statusValid _ _ _ h
  rw [if_neg h11] at h
  by_cases h12 : (cmdType == "market_get_my_recent_sell_listings") = true
  · rw [if_pos h12] at h
    exact singleCall_statusValid _ _ _ h
  rw [if_neg h12] at h
  by_cases h13 : (cmdType == "market_get_my_market_listings") = true
  · rw [if_pos h13] at h
    exact singleCall_statusValid _ _ _ h
  rw [if_neg h13] at h
  by_cases h14 : (cmdType == "market_get_history") = true
  · rw [if_pos h14] at h
    exact singleCall_statusValid _ _ _ h
  rw [if_neg h14] at h
  by_cases h15 : (cmdType == "get_session_id") = true
  · rw [if_pos h15] at h
    exact singleCall_statusValid _ _ _ h
  rw [if_neg h15] at h
  simp at h
  subst h
  simp [statusValid, mkError]
/-- `execute_command` always produces a `success`/`error` status. -/
theorem executeCommand_statusValid (env : Env) (clients : ClientMap) (c : Command) :
    statusValid (executeCommand env clients c).1 := by
  by_cases hc : (optFalsy c.cmd || optFalsy c.account_login) = true
  · simp [executeCommand, hc, statusValid]
  · rw [Bool.not_eq_true] at hc
    cases hg : (getSteamClient env clients (c.account_login.getD "")).1 with
    | none => simp [executeCommand, hc, hg, statusValid]
    | some cl =>
      cases hr : (routeCommand env (c.account_login.getD "") (c.cmd.getD "") c.args).1 with
      | ok r =>
        have hv := routeCommand_ok_statusValid _ _ _ _ _ hr
        simp only [executeCommand, hc, Bool.false_eq_true, if_false, hg, hr]
        simpa [statusValid] using hv
      | error e => simp [executeCommand, hc, hg, hr, statusValid]

/-- When a routed handler raises, `execute_command`'s top-level `except`
converts the exception text into an error response. -/
theorem executeCommand_error_of_route_error (env : Env) (clients : ClientMap)
    (c : Command) (cl : Client) (e : String)
    (hc1 : optFalsy c.cmd = false) (hc2 : optFalsy c.account_login = false)
    (hg : (getSteamClient env clients (c.account_login.getD "")).1 = some cl)
    (hr : (routeCommand env (c.account_login.getD "") (c.cmd.getD "") c.args).1 = .error e) :
    (executeCommand env clients c).1 = ⟨"error", some e, none, c.request_id⟩ := by
  simp [executeCommand, hc1, hc2, hg, hr]

end Autobase.Executor

namespace Autobase.Executor

/-- Updating the cache under a fresh key makes it retrievable. -/
theorem lookup_append_single {m : ClientMap} {k : String} (c : Client)
    (h : List.lookup k m = none) : List.lookup k (m ++ [(k, c)]) = some c := by
  induction m with
  | nil => simp [List.lookup]
  | cons kv rest ih =>
    obtain ⟨k', v'⟩ := kv
    rw [List.cons_append]
    rw [List.lookup_cons] at h ⊢
    cases hbe : (k == k') with
    | false =>
      rw [hbe] at h
      exact ih h
    | true =>
      rw [hbe] at h
      simp at h

/-- The session-acquisition trace never contains a handler's remote call
nor a backoff sleep: those effects belong to dispatched handlers only. -/
theorem getSteamClient_no_handler_effects (env : Env) (clients : ClientMap)
    (login : String) :
    ∀ eff ∈ (getSteamClient env clients login).2.2,
      eff.isHandlerNet = false ∧ eff.isSleep = false := by
  have hfull : ∀ cls, ∀ eff ∈ (fullLogin env cls login).2.2,
      eff.isHandlerNet = false ∧ eff.isSleep = false := by
    intro cls eff heff
    unfold fullLogin at heff
    split at heff
    · simp at heff
      rcases heff with h | h <;> subst h <;> simp [Effect.isHandlerNet, Effect.isSleep]
    · split at heff <;>
      · simp at heff
        rcases heff with h | h | h <;> subst h <;> simp [Effect.isHandlerNet, Effect.isSleep]
  have hacq : ∀ cls, ∀ eff ∈ (acquireClient env cls login).2.2,
      eff.isHandlerNet = false ∧ eff.isSleep = false := by
    intro cls eff heff
    unfold acquireClient at heff
    dsimp only at heff
    by_cases h1 : optFalsy (env.accounts login).password = true
    · rw [if_pos h1] at heff; simp at heff
    rw [if_neg h1] at heff
    by_cases h2 : optFalsy (env.accounts login).mafile_path = true
    · rw [if_pos h2] at heff; simp at heff
    rw [if_neg h2] at heff
    by_cases h3 : optFalsy (env.accounts login).api_key = true
    · rw [if_pos h3] at heff; simp at heff
    rw [if_neg h3] at heff
    by_cases h4 : ((!(env.accounts login).mafileExists) = true)
    · rw [if_pos h4] at heff; simp at heff
    rw [if_neg h4] at heff
    rcases hparse : (env.accounts login).mafileParse with e | ma
    · rw [hparse] at heff
      dsimp only at heff
      simp at heff
    rw [hparse] at heff
    dsimp only at heff
    by_cases h6 : ((!mafileFieldsOk ma) = true)
    · rw [if_pos h6] at heff; simp at heff
    rw [if_neg h6] at heff
    rcases hck : (env.accounts login).login_cookies with _ | ck
    · rw [hck] at heff
      dsimp only at heff
      exact hfull _ eff heff
    rw [hck] at heff
    dsimp only at heff
    rcases hcp : (env.oracles login).cookieProbe with e | b
    · rw [hcp] at heff
      dsimp only at heff
      simp at heff
      rcases heff with rfl | h
      · simp [Effect.isHandlerNet, Effect.isSleep]
      · exact hfull _ eff h
    rw [hcp] at heff
    cases b
    · dsimp only at heff
      simp at heff
      rcases heff with rfl | h
      · simp [Effect.isHandlerNet, Effect.isSleep]
      · exact hfull _ eff h
    · dsimp only at heff
      simp at heff
      subst heff
      simp [Effect.isHandlerNet, Effect.isSleep]
  intro eff heff
  unfold getSteamClient at heff
  rcases hlk : List.lookup login clients with _ | c0
  · rw [hlk] at heff
    dsimp only at heff
    exact hacq _ eff heff
  · rw [hlk] at heff
    dsimp only at heff
    rcases hcp : (env.oracles login).cachedProbe with e | b
    · rw [hcp] at heff
      dsimp only at heff
      simp at heff
      rcases heff with rfl | h
      · simp [Effect.isHandlerNet, Effect.isSleep]
      · exact hacq _ eff h
    · rw [hcp] at heff
      cases b
      · dsimp only at heff
        simp at heff
        rcases heff with rfl | h
        · simp [Effect.isHandlerNet, Effect.isSleep]
        · exact hacq _ eff h
      · dsimp only at heff
        simp at heff
        subst heff
        simp [Effect.isHandlerNet, Effect.isSleep]

/-- When the routed handler rejects the arguments before its remote call
(its result is the bare invalid-argument error response with an empty
trace), the command's response is that error with the request id stamped
and the whole trace is exactly the session-acquisition trace — which
holds no handler call and no backoff sleep. -/
theorem executeCommand_invalid_args (env : Env) (clients : ClientMap)
    (c : Command) (cl : Client) (msg : String)
    (hc1 : optFalsy c.cmd = false)
    (h2 : optFalsy c.account_login = false)
    (hg : (getSteamClient env clients (c.account_login.getD "")).1 = some cl)
    (hroute : routeCommand env (c.account_login.getD "") (c.cmd.getD "") c.args =
      (.ok (mkError msg), [])) :
    (executeCommand env clients c).1 = ⟨"error", some msg, none, c.request_id⟩ ∧
    (executeCommand env clients c).2.2 =
      (getSteamClient env clients (c.account_login.getD "")).2.2 ∧
    ∀ eff ∈ (executeCommand env clients c).2.2,
      eff.isHandlerNet = false ∧ eff.isSleep = false := by
  have hresp : (executeCommand env clients c).1 =
      ⟨"error", some msg, none, c.request_id⟩ := by
    simp [executeCommand, hc1, h2, hg, hroute, mkError]
  have htr : (executeCommand env clients c).2.2 =
      (getSteamClient env clients (c.account_login.getD "")).2.2 := by
    simp [executeCommand, hc1, h2, hg, hroute]
  refine ⟨hresp, htr, ?_⟩
  intro eff heff
  rw [htr] at heff
  exact getSteamClient_no_handler_effects env clients _ eff heff

end Autobase.Executor

namespace Autobase.Channel

open Autobase.Executor

/-- The listen loop answers every command. -/
theorem listenLoop_length (env : Env) (clients : ClientMap) (cmds : List Command) :
    (listenLoop env clients cmds).1.length = cmds.length := by
  induction cmds generalizing clients with
  | nil => rfl
  | cons c rest ih => simp [listenLoop, ih]

/-- The listen loop's responses echo the commands' request ids in receipt
order. -/
theorem listenLoop_request_ids (env : Env) (clients : ClientMap) (cmds : List Command) :
    (listenLoop env clients cmds).1.map (fun r => r.request_id) =
      cmds.map (fun c => c.request_id) := by
  induction cmds generalizing clients with
  | nil => rfl
  | cons c rest ih =>
    have hid := executeCommand_request_id env clients c
    simp only [listenLoop, List.map_cons, ih]
    congr 1
    split
    · rfl
    · exact hid

/-- Responses mapped onto the wire are never manifests. -/
theorem responses_filter_manifest (rs : List Response) :
    (rs.map Msg.response).filter Msg.isManifest = [] := by
  induction rs with
  | nil => rfl
  | cons r rest ih => simp [List.filter, Msg.isManifest, ih]

/-- Responses mapped onto the wire are all responses. -/
theorem responses_all_response (rs : List Response) :
    (rs.map Msg.response).all Msg.isResponse = true := by
  induction rs with
  | nil => rfl
  | cons r rest ih => simp [List.all, Msg.isResponse, ih]

end Autobase.Channel

namespace Autobase.Claims

open Autobase

/-- C1: every response of `execute_command` carries the command's
`request_id` — also for malformed envelopes, unknown commands and raised
handlers — and the agent-side listen loop sends, per command, a response
with that same `request_id`, in receipt order. -/
theorem executor_and_channel_echo_request_id (env : Executor.Env)
    (clients : Executor.ClientMap) (c : Executor.Command)
    (cmds : List Executor.Command) :
    (Executor.executeCommand env clients c).1.request_id = c.request_id ∧
    (Channel.listenLoop env clients cmds).1.map (fun r => r.request_id) =
      cmds.map (fun c' => c'.request_id) :=
  ⟨Executor.executeCommand_request_id env clients c,
   Channel.listenLoop_request_ids env clients cmds⟩

/-- C9: `execute_command` is total over its interface: every command
yields a response whose status is `"success"` or `"error"`, and a raised
handler exception surfaces as an error response whose message is the
exception's text. -/
theorem execute_command_total (env : Executor.Env) (clients : Executor.ClientMap)
    (c : Executor.Command) :
    Executor.statusValid (Executor.executeCommand env clients c).1 ∧
    (∀ cl e, optFalsy c.cmd = false → optFalsy c.account_login = false →
      (Executor.getSteamClient env clients (c.account_login.getD "")).1 = some cl →
      (Executor.routeCommand env (c.account_login.getD "") (c.cmd.getD "") c.args).1 =
        .error e →
      (Executor.executeCommand env clients c).1 =
        ⟨"error", some e, none, c.request_id⟩) :=
  ⟨Executor.executeCommand_statusValid env clients c,
   fun cl e h1 h2 hg hr =>
     Executor.executeCommand_error_of_route_error env clients c cl e h1 h2 hg hr⟩

/-- C9 witness: an inventory request whose five remote attempts all fail
surfaces the last exception text as the error message, with the
request id echoed. -/
theorem execute_command_total_witness :
    (optFalsy (some "get_my_inventory") = false ∧
     optFalsy (some "alice") = false ∧
     (Executor.getSteamClient Executor.sampleEnv Executor.sampleClients "alice").1 =
       some ⟨"alice", false⟩ ∧
     (Executor.routeCommand Executor.sampleEnv "alice" "get_my_inventory" []).1 =
       .error "network down") ∧
    (Executor.executeCommand Executor.sampleEnv Executor.sampleClients
        ⟨some "get_my_inventory", some "alice", some "r9", []⟩).1 =
      ⟨"error", some "network down", none, some "r9"⟩ :=
  ⟨⟨rfl, rfl, rfl, rfl⟩,
   (execute_command_total Executor.sampleEnv Executor.sampleClients
      ⟨some "get_my_inventory", some "alice", some "r9", []⟩).2
      ⟨"alice", false⟩ "network down" rfl rfl rfl rfl⟩

/-- C7: on one connection the agent sends the manifest first, exactly
once, and then exactly one response per inbound command, in receipt
order with matching request ids; nothing else is sent. -/
theorem channel_manifest_once_then_responses (env : Executor.Env)
    (clients : Executor.ClientMap) (logins : List String)
    (cmds : List Executor.Command) :
    (Channel.connectSent env clients logins cmds).head? =
      some (.manifest logins) ∧
    ((Channel.connectSent env clients logins cmds).filter
      Channel.Msg.isManifest).length = 1 ∧
    (Channel.connectSent env clients logins cmds).tail.all
      Channel.Msg.isResponse = true ∧
    (Channel.connectSent env clients logins cmds).tail.length = cmds.length ∧
    (Channel.listenLoop env clients cmds).1.map (fun r => r.request_id) =
      cmds.map (fun c => c.request_id) := by
  refine ⟨rfl, ?_, ?_, ?_, Channel.listenLoop_request_ids env clients cmds⟩
  · simp [Channel.connectSent, List.filter, Channel.Msg.isManifest,
      Channel.responses_filter_manifest]
  · simpa [Channel.connectSent] using
      Channel.responses_all_response (Channel.listenLoop env clients cmds).1
  · simp [Channel.connectSent, Channel.listenLoop_length]

/-- C4 counterexample: `_make_offer_with_url` is a dispatcher handler
performing a remote Steam call, yet with attempts 1-4 failing and attempt
5 succeeding it returns an error response after the single first attempt,
with no retry and no backoff sleeps — refuting "every dispatcher handler
… retries at most 5 attempts with linear backoff". -/
theorem make_offer_handler_does_not_retry :
    (Executor.makeOfferWithUrlH
      [("trade_offer_url", PyVal.pstr "https://steamcommunity.com/tradeoffer/new/?partner=1")]
      (fun n => if n == 5 then .ok (.pint 7) else .error "temporary failure")).1 =
      .ok (Executor.mkError "temporary failure") ∧
    (Executor.makeOfferWithUrlH
      [("trade_offer_url", PyVal.pstr "https://steamcommunity.com/tradeoffer/new/?partner=1")]
      (fun n => if n == 5 then .ok (.pint 7) else .error "temporary failure")).2 =
      [Executor.Effect.handlerNet "make_offer_with_url"] :=
  ⟨rfl, rfl⟩

/-- C4 (amended): the inventory and wallet-balance handlers retry at most
5 attempts with linear attempt-number backoff — failing on attempts 1-4
and succeeding on attempt 5 returns success having slept exactly
1, 2, 3 and 4 seconds, and failing on all 5 re-raises the last error,
which surfaces as an error response; every other remote-call dispatcher
handler performs exactly the single first attempt, returning its failure
as an error response with no retry and no sleeps; and the market-layer
listing retrieval retries up to 5 attempts with exponential backoff of
`2 ** attempt` seconds (1, 2, 4, 8), surfacing the last failure after
exhaustion. -/
theorem retry_handlers (oracle : Nat → Except String PyVal)
    (env : Executor.Env) (args : List (String × PyVal))
    (e1 e2 e3 e4 e5 : String) (v : PyVal) :
    (oracle 1 = .error e1 → oracle 2 = .error e2 → oracle 3 = .error e3 →
     oracle 4 = .error e4 → oracle 5 = .ok v →
      Executor.getMyInventoryH oracle =
        (.ok (Executor.mkSuccess v), Executor.retryTrace "get_my_inventory") ∧
      Executor.getWalletBalanceH oracle =
        (.ok (Executor.mkSuccess v), Executor.retryTrace "get_wallet_balance") ∧
      ((dictGet args "partner_steam_id").falsy = false →
        Executor.getPartnerInventoryH args oracle =
          (.ok (Executor.mkSuccess v), Executor.retryTrace "get_partner_inventory")) ∧
      (Executor.retryTrace "get_my_inventory").filter Executor.Effect.isSleep =
        [.sleep 1, .sleep 2, .sleep 3, .sleep 4]) ∧
    (oracle 1 = .error e1 → oracle 2 = .error e2 → oracle 3 = .error e3 →
     oracle 4 = .error e4 → oracle 5 = .error e5 →
      Executor.getMyInventoryH oracle =
        (.error e5, Executor.retryTrace "get_my_inventory") ∧
      Executor.getWalletBalanceH oracle =
        (.error e5, Executor.retryTrace "get_wallet_balance")) ∧
    (∀ env2 clients c cl,
      c.cmd = some "get_my_inventory" → optFalsy c.account_login = false →
      (Executor.getSteamClient env2 clients (c.account_login.getD "")).1 = some cl →
      (∀ k, env2.remote (c.account_login.getD "") "get_my_inventory" k = .error e5) →
      (Executor.executeCommand env2 clients c).1 =
        ⟨"error", some e5, none, c.request_id⟩) ∧
    (oracle 1 = .error e1 →
      Executor.isSessionAliveH oracle =
        (.ok (Executor.mkError e1), [.handlerNet "is_session_alive"]) ∧
      ((dictGet args "trade_offer_url").falsy = false →
        Executor.makeOfferWithUrlH args oracle =
          (.ok (Executor.mkError e1), [.handlerNet "make_offer_with_url"])) ∧
      ((dictGet args "item_hash_name").falsy = false →
       (dictGet args "app_id").falsy = false →
       (dictGet args "currency").isNoneVal = false →
       env.currencyOk (dictGet args "currency") = true →
        Executor.marketFetchPriceH env args oracle =
          (.ok (Executor.mkError e1), [.handlerNet "market_fetch_price"])) ∧
      ((dictGet args "assetid").falsy = false →
       (dictGet args "app_id").falsy = false →
       (dictGet args "money_to_receive").falsy = false →
        Executor.marketCreateSellOrderH args oracle =
          (.ok (Executor.mkError e1), [.handlerNet "market_create_sell_order"])) ∧
      ((dictGet args "sell_listing_id").falsy = false →
        Executor.marketCancelSellOrderH args oracle =
          (.ok (Executor.mkError e1), [.handlerNet "market_cancel_sell_order"])) ∧
      ((dictGet args "buy_order_id").falsy = false →
        Executor.marketCancelBuyOrderH args oracle =
          (.ok (Executor.mkError e1), [.handlerNet "market_cancel_buy_order"])) ∧
      (∀ name, Executor.singleCall name oracle =
        (.ok (Executor.mkError e1), [.handlerNet name]))) ∧
    ((oracle 0 = .error e1 → oracle 1 = .error e2 → oracle 2 = .error e3 →
      oracle 3 = .error e4 → oracle 4 = .ok v →
       Market.marketRetry oracle = (.ok v, [1, 2, 4, 8])) ∧
     (oracle 0 = .error e1 → oracle 1 = .error e2 → oracle 2 = .error e3 →
      oracle 3 = .error e4 → oracle 4 = .error e5 →
       Market.marketRetry oracle = (.error e5, [1, 2, 4, 8]))) := by
  refine ⟨?_, ?_, ?_, ?_, ?_, ?_⟩
  · intro h1 h2 h3 h4 h5
    refine ⟨?_, ?_, ?_, by decide⟩
    · simp [Executor.getMyInventoryH, Executor.runRetry, Executor.retryTrace,
        h1, h2, h3, h4, h5]
    · simp [Executor.getWalletBalanceH, Executor.runRetry, Executor.retryTrace,
        h1, h2, h3, h4, h5]
    · intro hv
      simp [Executor.getPartnerInventoryH, Executor.runRetry, Executor.retryTrace,
        hv, h1, h2, h3, h4, h5]
  · intro h1 h2 h3 h4 h5
    constructor
    · simp [Executor.getMyInventoryH, Executor.runRetry, Executor.retryTrace,
        h1, h2, h3, h4, h5]
    · simp [Executor.getWalletBalanceH, Executor.runRetry, Executor.retryTrace,
        h1, h2, h3, h4, h5]
  · intro env2 clients c cl h1 h2 hg hw
    have hr : (Executor.routeCommand env2 (c.account_login.getD "")
        (c.cmd.getD "") c.args).1 = .error e5 := by
      simp [h1, Executor.routeCommand, Executor.getMyInventoryH, Executor.runRetry,
        hw 1, hw 2, hw 3, hw 4, hw 5]
    have hcmd : optFalsy c.cmd = false := by rw [h1]; rfl
    exact Executor.executeCommand_error_of_route_error env2 clients c cl e5 hcmd h2 hg hr
  · intro h1
    refine ⟨?_, ?_, ?_, ?_, ?_, ?_, ?_⟩
    · simp [Executor.isSessionAliveH, Executor.singleCall, h1]
    · intro hv
      simp [Executor.makeOfferWithUrlH, hv, Executor.singleCall, h1]
    · intro hA hB hC hD
      simp [Executor.marketFetchPriceH, hA, hB, hC, hD, Executor.singleCall, h1]
    · intro hA hB hC
      simp [Executor.marketCreateSellOrderH, hA, hB, hC, Executor.singleCall, h1]
    · intro hv
      simp [Executor.marketCancelSellOrderH, hv, h1]
    · intro hv
      simp [Executor.marketCancelBuyOrderH, hv, Executor.singleCall, h1]
    · intro name
      simp [Executor.singleCall, h1]
  · intro h0 h1 h2 h3 h4
    simp [Market.marketRetry, h0, h1, h2, h3, h4]
  · intro h0 h1 h2 h3 h4
    simp [Market.marketRetry, h0, h1, h2, h3, h4]

/-- C4 witness: the linear retry loop on an oracle failing attempts 1-4
and succeeding on attempt 5; a single-attempt handler returning the first
failure; and the market-layer exponential loop sleeping 1, 2, 4, 8 on an
always-failing oracle. -/
theorem retry_handlers_witness :
    ((fun n => if n == 5 then (.ok (PyVal.pint 7) : Except String PyVal)
        else .error "boom") 1 = .error "boom" ∧
     (fun n => if n == 5 then (.ok (PyVal.pint 7) : Except String PyVal)
        else .error "boom") 5 = .ok (.pint 7)) ∧
    Executor.getMyInventoryH
      (fun n => if n == 5 then .ok (.pint 7) else .error "boom") =
      (.ok (Executor.mkSuccess (.pint 7)), Executor.retryTrace "get_my_inventory") ∧
    Executor.isSessionAliveH
      (fun n => if n == 5 then .ok (.pint 7) else .error "boom") =
      (.ok (Executor.mkError "boom"), [.handlerNet "is_session_alive"]) ∧
    Market.marketRetry (fun _ => .error "boom") = (.error "boom", [1, 2, 4, 8]) :=
  ⟨⟨rfl, rfl⟩,
   ((retry_handlers (fun n => if n == 5 then .ok (.pint 7) else .error "boom")
      Executor.sampleEnv [] "boom" "boom" "boom" "boom" "x" (.pint 7)).1
      rfl rfl rfl rfl rfl).1,
   ((retry_handlers (fun n => if n == 5 then .ok (.pint 7) else .error "boom")
      Executor.sampleEnv [] "boom" "boom" "boom" "boom" "x" (.pint 7)).2.2.2.1
      rfl).1,
   (retry_handlers (fun _ => .error "boom")
      Executor.sampleEnv [] "boom" "boom" "boom" "boom" "boom" (.pint 7)).2.2.2.2.2
      rfl rfl rfl rfl rfl⟩

end Autobase.Claims

namespace Autobase.Claims

/-- C5 counterexample: a `market_create_sell_order` command missing
`assetid`/`app_id`/`money_to_receive` does produce the invalid-argument
error response, but only after the session-liveness probe — a network
call — has already run: the claim's "before any network call is made" is
false at this input. -/
theorem invalid_args_after_session_probe :
    Executor.executeCommand Executor.sampleEnv Executor.sampleClients
      ⟨some "market_create_sell_order", some "alice", some "r5", []⟩ =
      (⟨"error", some "Не указаны assetid, app_id или money_to_receive", none, some "r5"⟩,
       Executor.sampleClients, [Executor.Effect.sessionProbe "alice"]) ∧
    Executor.Effect.isNetwork (.sessionProbe "alice") = true :=
  ⟨rfl, rfl⟩

/-- C5 (amended): every command whose arguments fail the handler's
validation — `market_create_sell_order`, `make_offer_with_url`,
`get_partner_inventory`, `market_fetch_price` (missing arguments or a
currency value the `Currency` enum rejects), `market_cancel_sell_order`
and `market_cancel_buy_order` — gets its invalid-argument error response
before any handler network call and without entering the retry loop (the
trace holds no handler call and no backoff sleep); session acquisition —
a liveness probe or login, which is itself network traffic — still runs
before the validation. -/
theorem invalid_args_skip_handler_network (env : Executor.Env)
    (clients : Executor.ClientMap) (c : Executor.Command) (cl : Executor.Client) :
    (c.cmd = some "market_create_sell_order" →
     optFalsy c.account_login = false →
     (Executor.getSteamClient env clients (c.account_login.getD "")).1 = some cl →
     ((dictGet c.args "assetid").falsy = true ∨ (dictGet c.args "app_id").falsy = true ∨
      (dictGet c.args "money_to_receive").falsy = true) →
     (Executor.executeCommand env clients c).1 =
       ⟨"error", some "Не указаны assetid, app_id или money_to_receive", none,
        c.request_id⟩ ∧
     (Executor.executeCommand env clients c).2.2 =
       (Executor.getSteamClient env clients (c.account_login.getD "")).2.2 ∧
     (∀ eff ∈ (Executor.executeCommand env clients c).2.2,
       eff.isHandlerNet = false ∧ eff.isSleep = false)) ∧
    (c.cmd = some "make_offer_with_url" →
     optFalsy c.account_login = false →
     (Executor.getSteamClient env clients (c.account_login.getD "")).1 = some cl →
     (dictGet c.args "trade_offer_url").falsy = true →
     (Executor.executeCommand env clients c).1 =
       ⟨"error", some "Не указан trade_offer_url", none, c.request_id⟩ ∧
     (Executor.executeCommand env clients c).2.2 =
       (Executor.getSteamClient env clients (c.account_login.getD "")).2.2 ∧
     (∀ eff ∈ (Executor.executeCommand env clients c).2.2,
       eff.isHandlerNet = false ∧ eff.isSleep = false)) ∧
    (c.cmd = some "get_partner_inventory" →
     optFalsy c.account_login = false →
     (Executor.getSteamClient env clients (c.account_login.getD "")).1 = some cl →
     (dictGet c.args "partner_steam_id").falsy = true →
     (Executor.executeCommand env clients c).1 =
       ⟨"error", some "Не указан partner_steam_id", none, c.request_id⟩ ∧
     (Executor.executeCommand env clients c).2.2 =
       (Executor.getSteamClient env clients (c.account_login.getD "")).2.2 ∧
     (∀ eff ∈ (Executor.executeCommand env clients c).2.2,
       eff.isHandlerNet = false ∧ eff.isSleep = false)) ∧
    (c.cmd = some "market_fetch_price" →
     optFalsy c.account_login = false →
     (Executor.getSteamClient env clients (c.account_login.getD "")).1 = some cl →
     ((dictGet c.args "item_hash_name").falsy = true ∨
      (dictGet c.args "app_id").falsy = true ∨
      (dictGet c.args "currency").isNoneVal = true) →
     (Executor.executeCommand env clients c).1 =
       ⟨"error", some "Не указаны item_hash_name, app_id или currency", none,
        c.request_id⟩ ∧
     (Executor.executeCommand env clients c).2.2 =
       (Executor.getSteamClient env clients (c.account_login.getD "")).2.2 ∧
     (∀ eff ∈ (Executor.executeCommand env clients c).2.2,
       eff.isHandlerNet = false ∧ eff.isSleep = false)) ∧
    (c.cmd = some "market_fetch_price" →
     optFalsy c.account_login = false →
     (Executor.getSteamClient env clients (c.account_login.getD "")).1 = some cl →
     (dictGet c.args "item_hash_name").falsy = false →
     (dictGet c.args "app_id").falsy = false →
     (dictGet c.args "currency").isNoneVal = false →
     env.currencyOk (dictGet c.args "currency") = false →
     (Executor.executeCommand env clients c).1 =
       ⟨"error", some "Неверное значение валюты", none, c.request_id⟩ ∧
     (Executor.executeCommand env clients c).2.2 =
       (Executor.getSteamClient env clients (c.account_login.getD "")).2.2 ∧
     (∀ eff ∈ (Executor.executeCommand env clients c).2.2,
       eff.isHandlerNet = false ∧ eff.isSleep = false)) ∧
    (c.cmd = some "market_cancel_sell_order" →
     optFalsy c.account_login = false →
     (Executor.getSteamClient env clients (c.account_login.getD "")).1 = some cl →
     (dictGet c.args "sell_listing_id").falsy = true →
     (Executor.executeCommand env clients c).1 =
       ⟨"error", some "Не указан sell_listing_id", none, c.request_id⟩ ∧
     (Executor.executeCommand env clients c).2.2 =
       (Executor.getSteamClient env clients (c.account_login.getD "")).2.2 ∧
     (∀ eff ∈ (Executor.executeCommand env clients c).2.2,
       eff.isHandlerNet = false ∧ eff.isSleep = false)) ∧
    (c.cmd = some "market_cancel_buy_order" →
     optFalsy c.account_login = false →
     (Executor.getSteamClient env clients (c.account_login.getD "")).1 = some cl →
     (dictGet c.args "buy_order_id").falsy = true →
     (Executor.executeCommand env clients c).1 =
       ⟨"error", some "Не указан buy_order_id", none, c.request_id⟩ ∧
     (Executor.executeCommand env clients c).2.2 =
       (Executor.getSteamClient env clients (c.account_login.getD "")).2.2 ∧
     (∀ eff ∈ (Executor.executeCommand env clients c).2.2,
       eff.isHandlerNet = false ∧ eff.isSleep = false)) := by
  refine ⟨?_, ?_, ?_, ?_, ?_, ?_, ?_⟩
  · intro h1 h2 hg hv
    refine Executor.executeCommand_invalid_args env clients c cl _ (by rw [h1]; rfl) h2 hg ?_
    rcases hv with hv | hv | hv <;>
      simp [h1, Executor.routeCommand, Executor.marketCreateSellOrderH, hv]
  · intro h1 h2 hg hv
    refine Executor.executeCommand_invalid_args env clients c cl _ (by rw [h1]; rfl) h2 hg ?_
    simp [h1, Executor.routeCommand, Executor.makeOfferWithUrlH, hv]
  · intro h1 h2 hg hv
    refine Executor.executeCommand_invalid_args env clients c cl _ (by rw [h1]; rfl) h2 hg ?_
    simp [h1, Executor.routeCommand, Executor.getPartnerInventoryH, hv]
  · intro h1 h2 hg hv
    refine Executor.executeCommand_invalid_args env clients c cl _ (by rw [h1]; rfl) h2 hg ?_
    rcases hv with hv | hv | hv <;>
      simp [h1, Executor.routeCommand, Executor.marketFetchPriceH, hv]
  · intro h1 h2 hg hA hB hC hD
    refine Executor.executeCommand_invalid_args env clients c cl _ (by rw [h1]; rfl) h2 hg ?_
    simp [h1, Executor.routeCommand, Executor.marketFetchPriceH, hA, hB, hC, hD]
  · intro h1 h2 hg hv
    refine Executor.executeCommand_invalid_args env clients c cl _ (by rw [h1]; rfl) h2 hg ?_
    simp [h1, Executor.routeCommand, Executor.marketCancelSellOrderH, hv]
  · intro h1 h2 hg hv
    refine Executor.executeCommand_invalid_args env clients c cl _ (by rw [h1]; rfl) h2 hg ?_
    simp [h1, Executor.routeCommand, Executor.marketCancelBuyOrderH, hv]

/-- C5 witness: the amended statement evaluated on a concrete
`market_create_sell_order` command with empty arguments against a cached
live session. -/
theorem invalid_args_skip_handler_network_witness :
    ((dictGet ([] : List (String × PyVal)) "assetid").falsy = true ∧
     (dictGet ([] : List (String × PyVal)) "partner_steam_id").falsy = true ∧
     (Executor.getSteamClient Executor.sampleEnv Executor.sampleClients "alice").1 =
       some ⟨"alice", false⟩) ∧
    ((Executor.executeCommand Executor.sampleEnv Executor.sampleClients
        ⟨some "market_create_sell_order", some "alice", some "r5", []⟩).1 =
      ⟨"error", some "Не указаны assetid, app_id или money_to_receive", none, some "r5"⟩) ∧
    ((Executor.executeCommand Executor.sampleEnv Executor.sampleClients
        ⟨some "get_partner_inventory", some "alice", some "rp", []⟩).1 =
      ⟨"error", some "Не указан partner_steam_id", none, some "rp"⟩) :=
  ⟨⟨rfl, rfl, rfl⟩,
   ((invalid_args_skip_handler_network Executor.sampleEnv Executor.sampleClients
      ⟨some "market_create_sell_order", some "alice", some "r5", []⟩
      ⟨"alice", false⟩).1 rfl rfl rfl (Or.inl rfl)).1,
   ((invalid_args_skip_handler_network Executor.sampleEnv Executor.sampleClients
      ⟨some "get_partner_inventory", some "alice", some "rp", []⟩
      ⟨"alice", false⟩).2.2.1 rfl rfl rfl rfl).1⟩

/-- C8: when no client is cached, credentials are complete, persisted
cookies exist and the cookie-built handle probes alive, session
acquisition returns and caches that cookie-built handle, its whole trace
is the single cookie probe, and it performs zero RSA-fetch and zero
credential-submission calls. -/
theorem cookie_resumption_skips_login_protocol (env : Executor.Env)
    (clients : Executor.ClientMap) (login : String) (ma : Executor.MaData)
    (ck : List (String × String))
    (hnc : List.lookup login clients = none)
    (hpw : optFalsy (env.accounts login).password = false)
    (hmp : optFalsy (env.accounts login).mafile_path = false)
    (hak : optFalsy (env.accounts login).api_key = false)
    (hex : (env.accounts login).mafileExists = true)
    (hparse : (env.accounts login).mafileParse = .ok ma)
    (hfields : Executor.mafileFieldsOk ma = true)
    (hck : (env.accounts login).login_cookies = some ck)
    (hprobe : (env.oracles login).cookieProbe = .ok true) :
    (Executor.getSteamClient env clients login).1 = some ⟨login, true⟩ ∧
    List.lookup login (Executor.getSteamClient env clients login).2.1 =
      some ⟨login, true⟩ ∧
    (Executor.getSteamClient env clients login).2.2 =
      [Executor.Effect.cookieProbe login] ∧
    ∀ eff ∈ (Executor.getSteamClient env clients login).2.2,
      eff.isRsaFetch = false ∧ eff.isCredentialSubmit = false := by
  have hacq : Executor.acquireClient env clients login =
      (some ⟨login, true⟩, Executor.insertClient clients login ⟨login, true⟩,
       [Executor.Effect.cookieProbe login]) := by
    simp [Executor.acquireClient, hpw, hmp, hak, hex, hparse, hfields, hck, hprobe]
  have hg : Executor.getSteamClient env clients login =
      (some ⟨login, true⟩, Executor.insertClient clients login ⟨login, true⟩,
       [Executor.Effect.cookieProbe login]) := by
    simp [Executor.getSteamClient, hnc, hacq]
  have hins : Executor.insertClient clients login ⟨login, true⟩ =
      clients ++ [(login, ⟨login, true⟩)] := by
    simp [Executor.insertClient, hnc]
  refine ⟨by rw [hg], ?_, by rw [hg], ?_⟩
  · rw [hg]
    dsimp only
    rw [hins]
    exact Executor.lookup_append_single _ hnc
  · rw [hg]
    intro eff heff
    simp at heff
    subst heff
    simp [Executor.Effect.isRsaFetch, Executor.Effect.isCredentialSubmit]

/-- C8 witness: an account with persisted cookies whose cookie handle
probes alive resumes without the login protocol. -/
theorem cookie_resumption_skips_login_protocol_witness :
    (List.lookup "alice" ([] : Executor.ClientMap) = none ∧
     (Executor.sampleEnv.accounts "alice").login_cookies =
       some [("steamLoginSecure", "tok")] ∧
     (Executor.sampleEnv.oracles "alice").cookieProbe = .ok true) ∧
    ((Executor.getSteamClient Executor.sampleEnv [] "alice").1 =
       some ⟨"alice", true⟩ ∧
     (Executor.getSteamClient Executor.sampleEnv [] "alice").2.2 =
       [Executor.Effect.cookieProbe "alice"]) :=
  ⟨⟨rfl, rfl, rfl⟩,
   ⟨(cookie_resumption_skips_login_protocol Executor.sampleEnv [] "alice"
       Executor.sampleMa [("steamLoginSecure", "tok")]
       rfl rfl rfl rfl rfl rfl (by decide) rfl rfl).1,
    (cookie_resumption_skips_login_protocol Executor.sampleEnv [] "alice"
       Executor.sampleMa [("steamLoginSecure", "tok")]
       rfl rfl rfl rfl rfl rfl (by decide) rfl rfl).2.2.1⟩⟩

end Autobase.Claims
